import Mathlib

/-!
Verification of the sandboxed script-evaluation engine implemented in
`src/app/api/eval/route.ts` (the `safeEval` function and the `POST`/`GET`
handlers) together with the client-side result assembly in
`src/components/javascript-console.tsx` (`executeCode`).

The embedding follows the source line by line:
* JSON wire values are modelled by `Json` (numbers as `Int`, which covers
  every value the claims mention; floating point is never needed).
* The textual blocklist of `safeEval` (lines 29-59) is `filterError`:
  `code.includes(keyword)` is substring containment, and each regular
  expression in `dangerousPatterns` is a plain substring match except
  `/this\./`, whose `source` string used in the thrown message is `this\.`.
* The console-capture preamble of the wrapper (lines 65-84) stores
  `const originalConsole = console` and then overwrites `console.log` (and
  the three other methods) on that very object.  `originalConsole` is an
  alias of the mutated object, so `originalConsole.log(...args)` resolves at
  call time to the override itself: a snippet console call pushes one
  duplicate entry per stack frame and recurses until the engine raises
  `RangeError: Maximum call stack size exceeded`.  `consoleCallEntries`
  models the entries such a call deposits; the final content of the
  wrapper's `results` array for a whole run is carried by the snippet's
  denotation.
* The behaviour of the snippet itself under ECMAScript semantics is not part
  of the repository, so the execution of the admitted code inside the
  `new Function(...)` wrapper is parameterised by a denotation `Denot`:
  normal completion with a returned value, a thrown exception (carrying
  `error.message`, which is absent when a primitive value is thrown), a
  syntax error raised by the `Function` constructor itself, or divergence
  (the wrapper contains no timeout or cancellation mechanism of any kind, so
  a diverging snippet never yields a result).  Each case records the final
  content of the `results` array.
* `POST` reproduces the admission checks (lines 117-136), the call to
  `safeEval`, and both response shapes: the spread of the inner result
  (lines 142-146) and the catch-all error response (lines 150-160).  Fields
  that `JSON.stringify` drops because they are `undefined` are modelled as
  `none`.
-/

/-- JSON values as they travel over the wire.  Numbers are modelled as `Int`. -/
inductive Json where
  | null
  | bool (b : Bool)
  | num (n : Int)
  | str (s : String)
  | arr (xs : List Json)
  | obj (fields : List (String × Json))

/-- JavaScript truthiness of a `Json` value: `null`, `false`, `0` and `""` are
falsy; every object and array is truthy. -/
def Json.truthy : Json → Bool
  | .null => false
  | .bool b => b
  | .num n => n != 0
  | .str s => s != ""
  | .arr _ => true
  | .obj _ => true

/-- Truthiness of a possibly-absent value (`undefined` is falsy). -/
def truthyOpt : Option Json → Bool
  | none => false
  | some v => v.truthy

/-- `needle` occurs as a contiguous segment of `hay`. -/
def substrOfL (needle hay : List Char) : Bool :=
  hay.tails.any (fun t => needle.isPrefixOf t)

/-- String-level substring containment; this is `hay.includes(needle)` of
JavaScript (route.ts line 38) and also the matching behaviour of each
`dangerousPatterns` regular expression, all of which are literal strings. -/
def substrOf (needle hay : String) : Bool :=
  substrOfL needle.toList hay.toList

/-- The `dangerousKeywords` array of route.ts lines 30-34, in source order. -/
def dangerousKeywords : List String :=
  ["eval", "Function", "setTimeout", "setInterval", "clearTimeout", "clearInterval",
   "XMLHttpRequest", "fetch", "import", "require", "process", "global",
   "__dirname", "__filename", "Buffer", "module", "exports"]

/-- The `dangerousPatterns` array of route.ts lines 44-53.  Each entry pairs
the literal text the regular expression matches with its `source` string (the
text interpolated into the thrown message); they differ only for `/this\./`,
whose source carries the escaping backslash. -/
def dangerousPatterns : List (String × String) :=
  [("constructor", "constructor"), ("prototype", "prototype"),
   ("__proto__", "__proto__"), ("window", "window"), ("document", "document"),
   ("location", "location"), ("navigator", "navigator"), ("this.", "this\\.")]

/-- The first dangerous keyword contained in `code` (the loop of lines 37-41
throws at the first hit, so list order decides which message is produced). -/
def findKeyword (code : String) : Option String :=
  dangerousKeywords.find? (fun k => substrOf k code)

/-- The `source` of the first dangerous pattern matching `code` (lines 55-59). -/
def findPattern (code : String) : Option String :=
  (dangerousPatterns.find? (fun p => substrOf p.fst code)).map Prod.snd

/-- The textual blocklist of `safeEval` (lines 29-59): the message of the
error thrown for `code`, or `none` when the scan passes.  Keywords are
checked before patterns, exactly as in the source. -/
def filterError (code : String) : Option String :=
  match findKeyword code with
  | some k => some ("Unsafe code detected: " ++ k ++ " is not allowed")
  | none =>
    match findPattern code with
    | some p => some ("Unsafe code pattern detected: " ++ p)
    | none => none

/-- The kind of an entry pushed by the overridden console methods of the
wrapper (route.ts lines 69-84); each override tags its pushes with one of
these four type strings. -/
inductive LogKind where
  | log
  | error
  | warn
  | info

/-- One entry of the `results` array built by the wrapper: the overridden
console methods push `{ type, args, timestamp: Date.now() }`. -/
structure ConsoleEntry where
  type : LogKind
  args : List Json
  timestamp : Nat

/-- The entries that one snippet console call deposits in the `results`
array under the overrides of route.ts lines 65-84.  The wrapper stores
`const originalConsole = console` and then overwrites `console.log` on that
same object, so inside the override `originalConsole.log(...args)` resolves
— by dynamic property lookup on the aliased, already-mutated object — to the
override itself.  Each recursive frame pushes one entry (stamped with its
own `Date.now()`, taken from `clock` at frame index `i`) before re-entering,
so with `d` stack frames available the call pushes `d` duplicates of the one
call and then the engine raises `RangeError: Maximum call stack size
exceeded`; control never returns normally to the snippet from a console
call. -/
def consoleCallEntries (k : LogKind) (args : List Json) (clock : Nat → Nat) :
    Nat → Nat → List ConsoleEntry
  | _, 0 => []
  | i, d + 1 =>
      { type := k, args := args, timestamp := clock i } ::
        consoleCallEntries k args clock (i + 1) d

/-- The behaviour of the admitted snippet when the wrapper built at route.ts
line 63 is invoked, under ECMAScript semantics (the scripting language itself
is outside the repository, so it is a parameter of the model).  Each
constructor carries `results`, the final content of the wrapper's `results`
array for the run (built up by console calls — see `consoleCallEntries` —
and possibly by the snippet writing to the in-scope `results` binding
directly):
* `normal v results`: the inner function returns (`v = none` models
  returning `undefined`, which `JSON.stringify` later drops).  Because an
  uncaught console call never returns (it ends in a stack-overflow
  `RangeError`), a normally-terminating snippet made no console call outside
  a `try` — e.g. none at all, with `results = []`;
* `throws msg results`: evaluation throws; `msg` is the caught exception's
  `.message` (`none` when a primitive value was thrown, since then
  `error.message` is `undefined`).  A snippet whose first console call is
  uncaught ends here with the overflow message and `results` holding that
  call's flood of duplicates;
* `syntaxError msg`: the `Function` constructor itself throws while parsing
  the code, before the wrapper runs;
* `diverges results`: the snippet never completes (e.g. `while(true){}`).
  The wrapper is invoked synchronously and route.ts contains no deadline,
  worker or cancellation mechanism, so in this case `safeEval` never
  returns. -/
inductive Denot where
  | normal (value : Option Json) (results : List ConsoleEntry)
  | throws (msg : Option String) (results : List ConsoleEntry)
  | syntaxError (msg : String)
  | diverges (results : List ConsoleEntry)

/-- The object returned by the wrapper function (route.ts lines 91-102); its
`console` field is the `results` array as it stands when the inner
`try`/`catch` finishes. -/
structure InnerResult where
  result : Option Json
  console : List ConsoleEntry
  error : Option String
  success : Bool

/-- `safeEval` (route.ts lines 4-110).  `none` means the call never returns
(divergence); `some (Except.error msg)` means `safeEval` throws the error
with message `msg` (the blocklist throws of lines 39 and 57 happen before the
`try` of line 61, so they propagate directly; a `Function`-constructor error
is caught at line 107 and rethrown with the `Execution error: ` preamble);
`some (Except.ok r)` is a normal return of the wrapper's result object,
whose `console` field is the final `results` array recorded in the
denotation. -/
def safeEval (code : String) (denote : Denot) : Option (Except String InnerResult) :=
  match filterError code with
  | some msg => some (Except.error msg)
  | none =>
    match denote with
    | Denot.syntaxError msg => some (Except.error ("Execution error: " ++ msg))
    | Denot.normal v results =>
        some (Except.ok { result := v, console := results, error := none, success := true })
    | Denot.throws msg results =>
        some (Except.ok { result := some Json.null, console := results, error := msg, success := false })
    | Denot.diverges _ => none

/-- The body of the HTTP request as parsed at route.ts line 114: the `code`
and `context` fields, each possibly absent. -/
structure Body where
  code : Option Json
  context : Option Json

/-- The JSON payload of the response produced by `POST`.  A field holding
`none` is absent from the serialized object (`JSON.stringify` drops
`undefined` values); `status` is the HTTP status code. -/
structure ApiResponse where
  status : Nat
  result : Option Json
  console : Option (List ConsoleEntry)
  error : Option String
  success : Option Bool
  executionTime : Option Nat

/-- One of the three pre-admission rejections (route.ts lines 117-136): the
payload is the bare object `{ error: msg }` with status 400 — it carries no
`success`, `console`, `result` or `executionTime` field at all. -/
def rejection (msg : String) : ApiResponse :=
  { status := 400, result := none, console := none, error := some msg,
    success := none, executionTime := none }

/-- The catch-all response of `POST` (route.ts lines 150-160), produced when
`safeEval` throws: `result: null`, empty `console`, `success: false`,
`executionTime: 0`, status 400. -/
def catchResponse (msg : String) : ApiResponse :=
  { status := 400, result := some Json.null, console := some [],
    error := some msg, success := some false, executionTime := some 0 }

/-- The happy-path response of `POST` (route.ts lines 142-146): the wrapper's
result object spread into the payload together with `executionTime`.  Note
that an in-sandbox runtime fault also takes this path (with
`success: false`), still under HTTP status 200. -/
def evalResponse (r : InnerResult) (elapsed : Nat) : ApiResponse :=
  { status := 200, result := r.result, console := some r.console,
    error := r.error, success := some r.success, executionTime := some elapsed }

/-- The `POST` handler (route.ts lines 112-162).  The admission checks run in
source order: `!code` (any falsy value, including a missing field, `""`, `0`,
`false` and `null`), then `typeof code !== 'string'`, then
`code.length > 10000`.  `elapsed` is the measured wall-clock time of the
`safeEval` call.  The result is `none` when the call never returns (an
admitted diverging snippet blocks the handler forever). -/
def POST (body : Body) (denote : Denot) (elapsed : Nat) : Option ApiResponse :=
  if truthyOpt body.code = true then
    match body.code with
    | some (Json.str code) =>
        if code.length ≤ 10000 then
          match safeEval code denote with
          | none => none
          | some (Except.error msg) => some (catchResponse msg)
          | some (Except.ok r) => some (evalResponse r elapsed)
        else some (rejection "Code too long. Maximum 10,000 characters allowed.")
    | _ => some (rejection "Code must be a string")
  else some (rejection "Missing required field: code")

/-- The `limitations` array advertised by the `GET` handler of the same route
(route.ts lines 186-193) — the route's own documentation of the service. -/
def GET_limitations : List String :=
  ["No access to browser APIs (window, document, etc.)",
   "No network requests (fetch, XMLHttpRequest)",
   "No file system access",
   "No eval or Function constructor",
   "Maximum 10,000 characters per execution",
   "Execution timeout protection"]

/-- The parameter names of the wrapper function: `Object.keys(safeContext)`
in insertion order (route.ts lines 6-27). -/
def safeContextKeys : List String :=
  ["response", "request", "JSON", "console", "Object", "Array", "String",
   "Number", "Date", "Math", "RegExp"]

/-- Local bindings introduced by the wrapper's own preamble (route.ts lines
65-66); the snippet is nested inside the wrapper, so these are in its scope
chain as well. -/
def innerLocalNames : List String :=
  ["results", "originalConsole"]

/-- A representative subset of names bound in the global scope of the
hosting Node.js process.  The wrapper is built with the `Function`
constructor (route.ts line 63), and per ECMAScript semantics a function so
created closes over the *global* scope: any free name of the snippet that is
not a wrapper parameter or local is resolved in the host's global
environment, not rejected.  (The textual blocklist stops some of these
spellings, e.g. anything containing `global` or `fetch`, but names such as
`Reflect` pass it.) -/
def hostGlobalNames : List String :=
  ["globalThis", "Reflect", "Proxy", "Promise", "Symbol", "Boolean", "BigInt",
   "Error", "TypeError", "Map", "Set", "WeakMap", "WeakSet", "parseInt",
   "parseFloat", "isNaN", "isFinite", "structuredClone", "queueMicrotask",
   "URL", "TextEncoder", "fetch", "setTimeout", "setInterval"]

/-- Name resolution inside the snippet's scope chain: wrapper parameters
(the capability context), the wrapper's locals, and the host's globals. -/
def resolvable (name : String) : Bool :=
  safeContextKeys.contains name || innerLocalNames.contains name ||
    hostGlobalNames.contains name

/-- An object's own properties (reference-level model of the data context). -/
abbrev JsObj : Type := List (String × Json)

/-- The heap of objects alive during one evaluation call: addresses are
indices.  JavaScript objects are passed by reference, so mutating the object
at an address is visible through every alias of that address. -/
abbrev Store : Type := List JsObj

/-- A context value at the reference level: primitives are immediate, objects
are references into the `Store`. -/
inductive JsRef where
  | prim (v : Json)
  | ref (a : Nat)

/-- Property write `store[a][k] = v` on one object's field list: JavaScript
assignment replaces an existing own property or appends a new one. -/
def setObjField : JsObj → String → Json → JsObj
  | [], k, v => [(k, v)]
  | (k', v') :: rest, k, v =>
      if k' == k then (k, v) :: rest else (k', v') :: setObjField rest k v

/-- Property write through a reference: mutates the object at address `a`. -/
def setField (s : Store) (a : Nat) (k : String) (v : Json) : Store :=
  match s.get? a with
  | some o => s.set a (setObjField o k v)
  | none => s

/-- Property read through a reference. -/
def getField (s : Store) (a : Nat) (k : String) : Option Json :=
  (s.get? a).bind fun o => (o.find? (fun p => p.fst == k)).map Prod.snd

/-- The data bindings of `safeContext` (route.ts lines 8-9):
`context.response || {}` and `context.request || {}` at the reference level.
A truthy value — in particular any caller-supplied object reference — is
passed through unchanged (the very same reference, no copy of any kind); a
falsy or absent value is replaced by a freshly allocated empty object. -/
def bindDataRef (s : Store) (v : Option JsRef) : JsRef × Store :=
  match v with
  | some (JsRef.ref a) => (JsRef.ref a, s)
  | some (JsRef.prim p) =>
      if p.truthy then (JsRef.prim p, s) else (JsRef.ref s.length, s ++ [[]])
  | none => (JsRef.ref s.length, s ++ [[]])

/-- The `type` strings of the wire format for each captured console kind. -/
def kindStr : LogKind → String
  | LogKind.log => "log"
  | LogKind.error => "error"
  | LogKind.warn => "warn"
  | LogKind.info => "info"

/-- One entry of the client's console display state
(javascript-console.tsx). -/
structure ClientEntry where
  type : String
  args : List Json
  timestamp : Nat

/-- The client's mapping of the server-side console array
(javascript-console.tsx lines 184-189): each entry is copied with
`timestamp: item.timestamp || Date.now()`, and a missing array contributes
nothing. -/
def clientBase (resp : ApiResponse) (now : Nat) : List ClientEntry :=
  match resp.console with
  | some entries =>
      entries.map (fun e =>
        { type := kindStr e.type, args := e.args,
          timestamp := if e.timestamp = 0 then now else e.timestamp })
  | none => []

/-- The client's full console assembly (`executeCode`, javascript-console.tsx
lines 184-202): the mapped server entries, followed by one final entry of
type `result` carrying the returned value — appended exactly when
`result.success` is truthy and `result.result !== undefined`. -/
def clientConsole (resp : ApiResponse) (now : Nat) : List ClientEntry :=
  match resp.success, resp.result with
  | some true, some v =>
      clientBase resp now ++ [{ type := "result", args := [v], timestamp := now }]
  | _, _ => clientBase resp now

/-- JavaScript `String.prototype.trim` restricted to ASCII whitespace, which
is all the claims need. -/
def jsTrim (s : String) : String :=
  String.mk (((s.toList.dropWhile Char.isWhitespace).reverse.dropWhile
    Char.isWhitespace).reverse)

/-- The client-side submission guard of `executeCode`
(javascript-console.tsx line 160): `if (!code.trim()) return;` — the request
is sent only when the trimmed code is nonempty. -/
def executeCodeSubmits (code : String) : Bool :=
  jsTrim code != ""

/-- Unfolding of `POST` for an admitted code string: a nonempty string of
admissible length reaches the `safeEval` call. -/
theorem POST_run (code : String) (ctx : Option Json) (d : Denot) (et : Nat)
    (h1 : code ≠ "") (h2 : code.length ≤ 10000) :
    POST { code := some (Json.str code), context := ctx } d et =
      match safeEval code d with
      | none => none
      | some (Except.error msg) => some (catchResponse msg)
      | some (Except.ok r) => some (evalResponse r et) := by
  have ht : truthyOpt (some (Json.str code)) = true := by
    simp [truthyOpt, Json.truthy]
    exact h1
  simp [POST, ht, h2]

/-- A single console call floods the `results` array with one entry per
available stack frame. -/
theorem consoleCallEntries_length (k : LogKind) (args : List Json) (clk : Nat → Nat) :
    ∀ (d i : Nat), (consoleCallEntries k args clk i d).length = d := by
  intro d
  induction d with
  | zero => intro i; rfl
  | succ d' ih => intro i; simp [consoleCallEntries, ih (i + 1)]

/-- Every entry deposited by a single console call is a duplicate of that
call: same kind, same arguments. -/
theorem consoleCallEntries_mem (k : LogKind) (args : List Json) (clk : Nat → Nat) :
    ∀ (d i : Nat), ∀ e ∈ consoleCallEntries k args clk i d,
      e.type = k ∧ e.args = args := by
  intro d
  induction d with
  | zero => intro i e he; cases he
  | succ d' ih =>
    intro i e he
    rcases List.mem_cons.mp he with rfl | hm
    · exact ⟨rfl, rfl⟩
    · exact ih (i + 1) e hm

/-- Updating the object at a live address stores the new object there. -/
theorem store_get?_set_self :
    ∀ (s : Store) (a : Nat) (o : JsObj), a < s.length → (s.set a o).get? a = some o
  | _ :: _, 0, _, _ => rfl
  | _ :: xs, n + 1, o, h => store_get?_set_self xs n o (Nat.lt_of_succ_lt_succ h)
  | [], _, _, h => absurd h (by simp)

/-- After a property write, looking the key up finds the written value. -/
theorem find?_setObjField :
    ∀ (o : JsObj) (k : String) (v : Json),
      (setObjField o k v).find? (fun p => p.fst == k) = some (k, v) := by
  intro o k v
  induction o with
  | nil => simp [setObjField, List.find?]
  | cons p rest ih =>
    obtain ⟨k', v'⟩ := p
    by_cases h : k' == k
    · simp [setObjField, h, List.find?]
    · simp only [setObjField, h]
      simp only [Bool.false_eq_true, if_false]
      rw [List.find?_cons_of_neg _ (by simpa using h)]
      exact ih

/-- Every value `safeEval` can return: a thrown error message, a successful
wrapper result (no error field, `success: true`), or a caught in-sandbox
fault (`result: null`, `success: false`). -/
theorem safeEval_shape (code : String) (d : Denot)
    (x : Except String InnerResult) (h : safeEval code d = some x) :
    (∃ m, x = Except.error m) ∨
    (∃ v results, x = Except.ok { result := v, console := results, error := none, success := true }) ∨
    (∃ m results, x = Except.ok { result := some Json.null, console := results, error := m, success := false }) := by
  unfold safeEval at h
  cases hf : filterError code with
  | some m =>
    rw [hf] at h
    exact Or.inl ⟨m, (Option.some.inj h).symm⟩
  | none =>
    rw [hf] at h
    cases d with
    | normal v results => exact Or.inr (Or.inl ⟨v, results, (Option.some.inj h).symm⟩)
    | throws m results => exact Or.inr (Or.inr ⟨m, results, (Option.some.inj h).symm⟩)
    | syntaxError m => exact Or.inl ⟨_, (Option.some.inj h).symm⟩
    | diverges results => cases h

/-- Every response `POST` can produce: a bare pre-admission rejection, the
catch-all error response, or the spread of a wrapper result. -/
theorem POST_shape (body : Body) (d : Denot) (et : Nat) (r : ApiResponse)
    (h : POST body d et = some r) :
    (∃ m, r = rejection m) ∨ (∃ m, r = catchResponse m) ∨
    (∃ v results, r = evalResponse { result := v, console := results, error := none, success := true } et) ∨
    (∃ m results, r = evalResponse { result := some Json.null, console := results, error := m, success := false } et) := by
  unfold POST at h
  split at h
  · split at h
    · rename_i code hcode
      split at h
      · cases hs : safeEval code d with
        | none => rw [hs] at h; cases h
        | some x =>
          rw [hs] at h
          rcases safeEval_shape code d x hs with ⟨m, rfl⟩ | ⟨v, results, rfl⟩ | ⟨m, results, rfl⟩
          · exact Or.inr (Or.inl ⟨m, (Option.some.inj h).symm⟩)
          · exact Or.inr (Or.inr (Or.inl ⟨v, results, (Option.some.inj h).symm⟩))
          · exact Or.inr (Or.inr (Or.inr ⟨m, results, (Option.some.inj h).symm⟩))
      · exact Or.inl ⟨_, (Option.some.inj h).symm⟩
    · exact Or.inl ⟨_, (Option.some.inj h).symm⟩
  · exact Or.inl ⟨_, (Option.some.inj h).symm⟩

/-- The wire `type` string of a captured console entry is never `result`. -/
theorem kindStr_ne_result (k : LogKind) : kindStr k ≠ "result" := by
  cases k <;> decide

/-- C1: the claim states that a snippet entering an unconditional infinite
loop makes the evaluation call return within the deadline plus bounded
overhead with a `Timeout` error, the host staying responsive.  The route's
own `GET` documentation indeed advertises `Execution timeout protection`,
but `safeEval` invokes the wrapper synchronously with no deadline, worker or
cancellation mechanism whatsoever: for every admitted diverging snippet the
`POST` call never produces a response at all (and the request thread stays
blocked), so the code contradicts both the claim and its own documentation. -/
theorem C1_no_timeout :
    "Execution timeout protection" ∈ GET_limitations ∧
    ∀ (code : String) (ctx : Option Json) (results : List ConsoleEntry) (et : Nat),
      code ≠ "" → code.length ≤ 10000 → filterError code = none →
      POST { code := some (Json.str code), context := ctx } (Denot.diverges results) et = none := by
  constructor
  · decide
  · intro code ctx results et h1 h2 h3
    rw [POST_run code ctx _ et h1 h2]
    simp [safeEval, h3]

/-- Witness for C1 at the concrete snippet `while(true){}`, which passes the
admission checks and the textual blocklist and never completes. -/
theorem C1_no_timeout_witness :
    "while(true){}" ≠ "" ∧ "while(true){}".length ≤ 10000 ∧
    filterError "while(true){}" = none ∧
    POST { code := some (Json.str "while(true){}"), context := none }
        (Denot.diverges []) 0 = none :=
  ⟨by decide, by decide, by decide,
   C1_no_timeout.2 "while(true){}" none [] 0 (by decide) (by decide) (by decide)⟩

/-- C2 counterexample: the claim states that the only resolvable names are
the eleven capability-context bindings.  But the wrapper is created with the
`Function` constructor, so its scope chain ends in the host's global scope:
the global `Reflect`, which is not a context binding, resolves there, and
the snippet `return typeof Reflect` passes the blocklist and completes
successfully (under ECMAScript semantics `typeof Reflect` evaluates to
`"object"` in a Node.js host; the snippet makes no console call, so the
`results` array stays empty) instead of failing with an unresolved-reference
fault. -/
theorem C2_counterexample :
    resolvable "Reflect" = true ∧ "Reflect" ∉ safeContextKeys ∧
    filterError "return typeof Reflect" = none ∧
    POST { code := some (Json.str "return typeof Reflect"), context := none }
        (Denot.normal (some (Json.str "object")) []) 0
      = some (evalResponse
          { result := some (Json.str "object"), console := [], error := none, success := true } 0) :=
  ⟨by decide, by decide, by decide, rfl⟩

/-- C2 amended: the names resolvable inside the snippet are the capability
context's bindings together with the wrapper's own locals and the host's
global bindings (the `Function` constructor closes over the global scope);
every context binding resolves, some non-context names (e.g. `Reflect`) also
resolve, and only a name bound in none of these scopes fails as a normal
unresolved-reference runtime fault, reported as `success: false` with the
`is not defined` message (the response's `console` field carrying whatever
the `results` array held at the fault). -/
theorem C2_scope_amended :
    (∀ n, n ∈ safeContextKeys → resolvable n = true) ∧
    (resolvable "Reflect" = true ∧ "Reflect" ∉ safeContextKeys) ∧
    (∀ (code n : String) (ctx : Option Json) (results : List ConsoleEntry) (et : Nat),
      code ≠ "" → code.length ≤ 10000 → filterError code = none → resolvable n = false →
      POST { code := some (Json.str code), context := ctx }
          (Denot.throws (some (n ++ " is not defined")) results) et
        = some (evalResponse
            { result := some Json.null, console := results,
              error := some (n ++ " is not defined"), success := false } et)) := by
  refine ⟨by decide, ⟨by decide, by decide⟩, ?_⟩
  intro code n ctx results et h1 h2 h3 _
  rw [POST_run code ctx _ et h1 h2]
  simp [safeEval, h3]

/-- Witness for C2 amended: the context binding `JSON` resolves, and the
snippet `return nope` (whose free name `nope` is bound in no scope, and
which makes no console call) yields a normal runtime-fault response carrying
`nope is not defined`. -/
theorem C2_scope_amended_witness :
    resolvable "JSON" = true ∧
    POST { code := some (Json.str "return nope"), context := none }
        (Denot.throws (some ("nope" ++ " is not defined")) []) 0
      = some (evalResponse
          { result := some Json.null, console := [],
            error := some ("nope" ++ " is not defined"), success := false } 0) :=
  ⟨C2_scope_amended.1 "JSON" (by decide),
   C2_scope_amended.2.2 "return nope" "nope" none [] 0
     (by decide) (by decide) (by decide) (by decide)⟩

/-- C3 counterexample: the claim states the `response` binding is a
structural clone of the caller's value, with no snippet mutation observable
on the caller's original object.  But `safeContext` binds
`context.response || {}`: a truthy value is passed through as the very same
reference.  Concretely, with the caller's object `{a: 1}` at address 0, the
binding is that same address, and after the snippet writes `response.a = 2`
the caller's original reference reads back `2`. -/
theorem C3_counterexample :
    bindDataRef [[("a", Json.num 1)]] (some (JsRef.ref 0))
      = (JsRef.ref 0, [[("a", Json.num 1)]]) ∧
    getField [[("a", Json.num 1)]] 0 "a" = some (Json.num 1) ∧
    getField (setField [[("a", Json.num 1)]] 0 "a" (Json.num 2)) 0 "a" = some (Json.num 2) :=
  ⟨rfl, rfl, rfl⟩

/-- C3 amended: the `response` and `request` bindings are the caller-supplied
values themselves, not clones — for any object reference the context builder
returns the identical address and allocates nothing, so every property write
the snippet performs through the binding is observable through the caller's
original reference within that call.  (Evaluations remain isolated from each
other only because each `POST` call parses its own request body, producing
objects in a fresh store.) -/
theorem C3_alias_amended :
    (∀ (s : Store) (a : Nat), bindDataRef s (some (JsRef.ref a)) = (JsRef.ref a, s)) ∧
    (∀ (s : Store) (a : Nat) (k : String) (v : Json),
      a < s.length → getField (setField s a k v) a k = some v) := by
  constructor
  · intro s a; rfl
  · intro s a k v h
    have hg : ∃ o, s.get? a = some o := by
      rw [List.get?_eq_get h]
      exact ⟨_, rfl⟩
    obtain ⟨o, ho⟩ := hg
    simp only [setField, ho]
    simp only [getField, store_get?_set_self s a _ h]
    simp [find?_setObjField]

/-- Witness for C3 amended at the caller object `{a: 1}` stored at address 0:
the binding aliases address 0 and the write `a = 2` is read back through it. -/
theorem C3_alias_amended_witness :
    bindDataRef [[("a", Json.num 1)]] (some (JsRef.ref 0))
      = (JsRef.ref 0, [[("a", Json.num 1)]]) ∧
    getField (setField [[("a", Json.num 1)]] 0 "a" (Json.num 2)) 0 "a" = some (Json.num 2) :=
  ⟨C3_alias_amended.1 [[("a", Json.num 1)]] 0,
   C3_alias_amended.2 [[("a", Json.num 1)]] 0 "a" (Json.num 2) (by decide)⟩

/-- C4 counterexample: the claim states a snippet using a forbidden name is
reported indistinguishably from a normal unresolved-reference fault, never
revealing the filter or the detected token.  But for the snippet `fetch(1)`
the blocklist throws before execution and the response carries the message
`Unsafe code detected: fetch is not allowed`, which names the detected token
(`fetch` occurs in it as a substring) and differs from the unresolved-
reference message `fetch is not defined` that ECMAScript would produce. -/
theorem C4_counterexample :
    POST { code := some (Json.str "fetch(1)"), context := none }
        (Denot.normal none []) 0
      = some (catchResponse "Unsafe code detected: fetch is not allowed") ∧
    substrOf "fetch" "Unsafe code detected: fetch is not allowed" = true ∧
    "Unsafe code detected: fetch is not allowed" ≠ "fetch is not defined" :=
  ⟨rfl, by decide, by decide⟩

/-- C4 amended: a snippet whose text contains a blocked keyword is rejected
before execution with the distinguishable message
`Unsafe code detected: <keyword> is not allowed` (status 400, `success:
false`), and for every blocked keyword that message reveals the detected
token by containing it as a substring. -/
theorem C4_filter_message_amended :
    (∀ k ∈ dangerousKeywords,
      substrOf k ("Unsafe code detected: " ++ k ++ " is not allowed") = true) ∧
    (∀ (code k : String) (ctx : Option Json) (d : Denot) (et : Nat),
      code ≠ "" → code.length ≤ 10000 → findKeyword code = some k →
      POST { code := some (Json.str code), context := ctx } d et
        = some (catchResponse ("Unsafe code detected: " ++ k ++ " is not allowed"))) := by
  refine ⟨by decide, ?_⟩
  intro code k ctx d et h1 h2 h3
  rw [POST_run code ctx d et h1 h2]
  simp [safeEval, filterError, h3]

/-- Witness for C4 amended at the snippet `fetch(1)`, whose first matching
keyword is `fetch`. -/
theorem C4_filter_message_amended_witness :
    substrOf "fetch" ("Unsafe code detected: " ++ "fetch" ++ " is not allowed") = true ∧
    POST { code := some (Json.str "fetch(1)"), context := none }
        (Denot.normal none []) 0
      = some (catchResponse ("Unsafe code detected: " ++ "fetch" ++ " is not allowed")) :=
  ⟨C4_filter_message_amended.1 "fetch" (by decide),
   C4_filter_message_amended.2 "fetch(1)" "fetch" none (Denot.normal none []) 0
     (by decide) (by decide) (by decide)⟩

/-- C5 counterexample: the claim states every call, including pre-admission
rejections, yields a result with `success=false` and an always-present `log`
field.  But the rejection for a missing `code` field is the bare object
`{ error: "Missing required field: code" }`: the response exists, yet its
`success` field and its `console` field are both absent. -/
theorem C5_counterexample :
    (POST { code := none, context := none } (Denot.normal none []) 0).map
        ApiResponse.success = some none ∧
    (POST { code := none, context := none } (Denot.normal none []) 0).map
        ApiResponse.console = some none :=
  ⟨rfl, rfl⟩

/-- C5 amended: the exactly-one-of invariant holds only for responses that
reach execution: a response with no `success` field is one of the three
pre-admission rejections and carries only an `error` message (no `console`,
no `result`, status 400); a `success: true` response carries a `console`
array and no `error` field; a `success: false` response always carries a
`console` array. -/
theorem C5_shape_amended :
    ∀ (body : Body) (d : Denot) (et : Nat) (r : ApiResponse),
      POST body d et = some r →
      (r.success = none →
        r.console = none ∧ r.result = none ∧ (∃ m, r.error = some m) ∧ r.status = 400) ∧
      (r.success = some true → r.error = none ∧ ∃ es, r.console = some es) ∧
      (r.success = some false → ∃ es, r.console = some es) := by
  intro body d et r h
  rcases POST_shape body d et r h with ⟨m, rfl⟩ | ⟨m, rfl⟩ | ⟨v, results, rfl⟩ | ⟨m, results, rfl⟩ <;>
    simp [rejection, catchResponse, evalResponse]

/-- Witness for C5 amended at the concrete missing-`code` rejection. -/
theorem C5_shape_amended_witness :
    (rejection "Missing required field: code").console = none ∧
    (rejection "Missing required field: code").result = none ∧
    (∃ m, (rejection "Missing required field: code").error = some m) ∧
    (rejection "Missing required field: code").status = 400 :=
  (C5_shape_amended { code := none, context := none } (Denot.normal none []) 0
    (rejection "Missing required field: code") rfl).1 rfl

/-- C6 counterexample: the claim states every snippet that references no
undeclared name and terminates normally succeeds.  But the blocklist scans
raw text: the snippet `let windowA = 1; return windowA;` declares its only
name and returns 1, yet its text contains `window`, so the scan throws
before execution and the response is the catch-all error with
`success: false` instead of `success: true` with value 1. -/
theorem C6_counterexample :
    POST { code := some (Json.str "let windowA = 1; return windowA;"), context := none }
        (Denot.normal (some (Json.num 1)) []) 0
      = some (catchResponse "Unsafe code pattern detected: window") ∧
    (catchResponse "Unsafe code pattern detected: window").success = some false :=
  ⟨rfl, rfl⟩

/-- C6 amended: for every snippet that additionally passes the textual
blocklist, references no undeclared name and terminates normally, the result
has `success: true`, `value` equal to the snippet's returned value and no
`error` field (the `console` field carrying whatever the `results` array
held at completion). -/
theorem C6_success_amended :
    ∀ (code : String) (v : Option Json) (results : List ConsoleEntry) (ctx : Option Json)
      (et : Nat),
      code ≠ "" → code.length ≤ 10000 → filterError code = none →
      POST { code := some (Json.str code), context := ctx } (Denot.normal v results) et
        = some (evalResponse
            { result := v, console := results, error := none, success := true } et) := by
  intro code v results ctx et h1 h2 h3
  rw [POST_run code ctx _ et h1 h2]
  simp [safeEval, h3]

/-- Witness for C6 amended at the snippet `return 2;` returning 2 (the
round-trip example of the specification; no console call, so the `results`
array stays empty). -/
theorem C6_success_amended_witness :
    POST { code := some (Json.str "return 2;"), context := none }
        (Denot.normal (some (Json.num 2)) []) 7
      = some (evalResponse
          { result := some (Json.num 2), console := [], error := none, success := true } 7) :=
  C6_success_amended "return 2;" (some (Json.num 2)) [] none 7
    (by decide) (by decide) (by decide)

/-- C7: the claim states every log call is appended once, in program order —
in particular `log("a")` then `log("b")` always yields those two entries in
that order.  The specification is plainly the intent of the capture code
(it exists to record calls and forward them to the original console), but
the wrapper is defective: `const originalConsole = console` aliases the very
object whose methods are then overwritten, so `originalConsole.log(...args)`
re-enters the override itself.  The first `console.log("a")` therefore
pushes one duplicate `a` entry per available stack frame and ends in
`RangeError: Maximum call stack size exceeded`; `console.log("b")` is never
reached.  For every stack budget `d`, the flood consists of exactly `d`
entries, all duplicates of the first call — none carries `"b"` — and the
admitted snippet's response is `success: false` with the overflow message,
not the claimed two ordered entries. -/
theorem C7_capture_overflow :
    (∀ (k : LogKind) (args : List Json) (clk : Nat → Nat) (d i : Nat),
      (consoleCallEntries k args clk i d).length = d ∧
      ∀ e ∈ consoleCallEntries k args clk i d, e.type = k ∧ e.args = args) ∧
    (∀ (code : String) (ctx : Option Json) (clk : Nat → Nat) (d et : Nat),
      code ≠ "" → code.length ≤ 10000 → filterError code = none →
      POST { code := some (Json.str code), context := ctx }
          (Denot.throws (some "Maximum call stack size exceeded")
            (consoleCallEntries LogKind.log [Json.str "a"] clk 0 d)) et
        = some (evalResponse
            { result := some Json.null,
              console := consoleCallEntries LogKind.log [Json.str "a"] clk 0 d,
              error := some "Maximum call stack size exceeded", success := false } et) ∧
      ∀ e ∈ consoleCallEntries LogKind.log [Json.str "a"] clk 0 d,
        e.args ≠ [Json.str "b"]) := by
  constructor
  · intro k args clk d i
    exact ⟨consoleCallEntries_length k args clk d i, consoleCallEntries_mem k args clk d i⟩
  · intro code ctx clk d et h1 h2 h3
    constructor
    · rw [POST_run code ctx _ et h1 h2]
      simp [safeEval, h3]
    · intro e he
      have ha := (consoleCallEntries_mem LogKind.log [Json.str "a"] clk d 0 e he).2
      rw [ha]
      simp

/-- Witness for C7 at the snippet `console.log('a'); console.log('b');` with
a stack budget of 2 frames: the response is the overflow fault and the
captured array is two duplicated `a` entries — no `b` entry exists. -/
theorem C7_capture_overflow_witness :
    (consoleCallEntries LogKind.log [Json.str "a"] (fun n => n + 5) 0 2).length = 2 ∧
    POST { code := some (Json.str "console.log('a'); console.log('b');"), context := none }
        (Denot.throws (some "Maximum call stack size exceeded")
          (consoleCallEntries LogKind.log [Json.str "a"] (fun n => n + 5) 0 2)) 0
      = some (evalResponse
          { result := some Json.null,
            console := [⟨LogKind.log, [Json.str "a"], 5⟩, ⟨LogKind.log, [Json.str "a"], 6⟩],
            error := some "Maximum call stack size exceeded", success := false } 0) :=
  ⟨(C7_capture_overflow.1 LogKind.log [Json.str "a"] (fun n => n + 5) 2 0).1,
   (C7_capture_overflow.2 "console.log('a'); console.log('b');" none (fun n => n + 5) 2 0
     (by decide) (by decide) (by decide)).1⟩

/-- C8: the client-side assembler appends one final entry of type `result`
carrying the returned value, positioned after all server entries, exactly
when the response has a truthy `success` and a present (non-`undefined`)
`result` value; in every other case the assembled console equals the mapped
server entries, none of which can have type `result` (server entries only
ever carry the four console kinds). -/
theorem C8_result_entry :
    ∀ (resp : ApiResponse) (now : Nat),
      (∀ e ∈ clientBase resp now, e.type ≠ "result") ∧
      (∀ v, resp.success = some true → resp.result = some v →
        clientConsole resp now
          = clientBase resp now ++ [{ type := "result", args := [v], timestamp := now }]) ∧
      (resp.success ≠ some true → clientConsole resp now = clientBase resp now) ∧
      (resp.result = none → clientConsole resp now = clientBase resp now) := by
  intro resp now
  refine ⟨?_, ?_, ?_, ?_⟩
  · intro e he
    unfold clientBase at he
    cases hc : resp.console with
    | none => rw [hc] at he; cases he
    | some es =>
      rw [hc] at he
      obtain ⟨x, _, rfl⟩ := List.mem_map.mp he
      exact kindStr_ne_result x.type
  · intro v hs hr
    simp [clientConsole, hs, hr]
  · intro hs
    unfold clientConsole
    cases h : resp.success with
    | none => rfl
    | some b =>
      cases b with
      | false => rfl
      | true => exact absurd h hs
  · intro hr
    unfold clientConsole
    rw [hr]
    cases h : resp.success with
    | none => rfl
    | some b => cases b <;> rfl

/-- Witness for C8 at a successful response with one captured `log` entry and
returned value 7: the assembled console is the mapped log entry followed by
the final `result` entry. -/
theorem C8_result_entry_witness :
    clientConsole
        (evalResponse
          { result := some (Json.num 7),
            console := [⟨LogKind.log, [Json.str "a"], 5⟩],
            error := none, success := true } 3) 9
      = clientBase
          (evalResponse
            { result := some (Json.num 7),
              console := [⟨LogKind.log, [Json.str "a"], 5⟩],
              error := none, success := true } 3) 9
        ++ [{ type := "result", args := [Json.num 7], timestamp := 9 }] :=
  (C8_result_entry
    (evalResponse
      { result := some (Json.num 7),
        console := [⟨LogKind.log, [Json.str "a"], 5⟩],
        error := none, success := true } 3) 9).2.1 (Json.num 7) rfl rfl

/-- C9 counterexample: the claim states code that is empty after trimming is
rejected before any execution.  But the admission checks of `POST` never
trim: the one-space snippet `" "` is a truthy string within the length bound,
so it reaches `safeEval`, passes the blocklist, executes (a whitespace-only
function body makes no console call and returns `undefined`) and yields a
status-200 response with `success: true` — not a rejection. -/
theorem C9_counterexample :
    POST { code := some (Json.str " "), context := none }
        (Denot.normal none []) 0
      = some (evalResponse { result := none, console := [], error := none, success := true } 0) ∧
    (evalResponse { result := none, console := [], error := none, success := true } 0).status
      = 200 ∧
    (evalResponse { result := none, console := [], error := none, success := true } 0).success
      = some true :=
  ⟨rfl, rfl, rfl⟩

/-- C9 amended: only genuinely empty code is rejected before execution (the
empty string is falsy, so `!code` fires the `Missing required field: code`
rejection); whitespace-only nonempty code is admitted and executed by the
API, and it is only the browser component's own guard
(`if (!code.trim()) return;`) that declines to submit code that is empty
after trimming. -/
theorem C9_admission_amended :
    (∀ (d : Denot) (ctx : Option Json) (et : Nat),
      POST { code := some (Json.str ""), context := ctx } d et
        = some (rejection "Missing required field: code")) ∧
    (∀ code : String, jsTrim code = "" → executeCodeSubmits code = false) := by
  constructor
  · intro d ctx et
    simp [POST, truthyOpt, Json.truthy]
  · intro code h
    simp [executeCodeSubmits, h]

/-- Witness for C9 amended: the empty string is rejected pre-admission, and
the client guard does not submit the one-space snippet. -/
theorem C9_admission_amended_witness :
    POST { code := some (Json.str ""), context := none }
        (Denot.normal none []) 0
      = some (rejection "Missing required field: code") ∧
    executeCodeSubmits " " = false :=
  ⟨C9_admission_amended.1 (Denot.normal none []) none 0,
   C9_admission_amended.2 " " (by decide)⟩

/-- C10: the data bindings are built with `context.response || {}` (and the
same for `request`), so every falsy JSON value — `null`, `0`, `""`, `false` —
is replaced by a freshly allocated empty object, exactly like an absent one:
the snippet observes the symbol bound to a reference to `{}` rather than to
the supplied value. -/
theorem C10_falsy_binding :
    (Json.null.truthy = false ∧ (Json.num 0).truthy = false ∧
      (Json.str "").truthy = false ∧ (Json.bool false).truthy = false) ∧
    (∀ (s : Store) (v : Json), v.truthy = false →
      bindDataRef s (some (JsRef.prim v)) = (JsRef.ref s.length, s ++ [[]]) ∧
      (s ++ [[]])[s.length]? = some []) ∧
    (∀ s : Store,
      bindDataRef s none = (JsRef.ref s.length, s ++ [[]])) := by
  refine ⟨by decide, ?_, fun s => rfl⟩
  intro s v h
  constructor
  · simp [bindDataRef, h]
  · rw [List.getElem?_concat_length]

/-- Witness for C10 at the falsy value `0` and the empty store: the binding
is a fresh reference to the empty object. -/
theorem C10_falsy_binding_witness :
    bindDataRef [] (some (JsRef.prim (Json.num 0))) = (JsRef.ref 0, [[]]) ∧
    ([] ++ [([] : JsObj)])[([] : Store).length]? = some [] :=
  C10_falsy_binding.2.1 [] (Json.num 0) (by decide)
